import Mathlib

/-!
Verification of the ryOS real-time distribution layer and the bounded
"drift bottle" queue endpoint.

The definitions below are a shallow embedding of the TypeScript/JavaScript
sources:
  * `api/utils/redis-config.js` — server-side Pusher publisher
    (`getPusherInstance`, `sendPusherRealtimeEvent`,
    `sendMultiplePusherRealtimeEvents`, channel-name helpers);
  * `src/lib/pusherRealtime.ts` — client-side subscription helper
    (`subscribePusherRealtime`, channel-name helpers);
  * the `message-in-bottle` edge handler (POST = Produce, GET = Consume),
    including its JSON serialization of bottles, validation, the
    fire-and-forget `LTRIM`, and the defensive double-decode on reads.

Strings are modelled with Lean `String`/`List Char`; lengths are counted in
characters.  External effects (the Pusher provider, Redis) are modelled by
explicit parameters recording whether the provider is configured and whether
a given call fails; promise rejection is modelled as a Boolean outcome, and
`console` output as a list of log entries.
-/

namespace RyOS

/-! ### Channel naming (`createPublicChannelName` / `createPrivateChannelName`)

Source: `src/lib/pusherRealtime.ts` lines 184-196 and
`api/utils/redis-config.js` lines 266-284 (identical bodies).
The regex `/[^a-zA-Z0-9_\-\.]/g` is a single-character class, so
`String.replace` acts character by character. -/

/-- Characters allowed by the channel-name regex class `[a-zA-Z0-9_\-\.]`. -/
def isAllowedChannelChar (c : Char) : Bool :=
  (('a' ≤ c && c ≤ 'z') || ('A' ≤ c && c ≤ 'Z') || ('0' ≤ c && c ≤ '9')
    || c = '_' || c = '-' || c = '.')

/-- Embedding of `name.replace(/[^a-zA-Z0-9_\-\.]/g, "_")`. -/
def sanitizeChannel (s : String) : String :=
  String.mk (s.data.map (fun c => if isAllowedChannelChar c then c else '_'))

/-- Embedding of `createPublicChannelName` (default prefix argument is
`"public"`). -/
def createPublicChannelName (name : String) (pre : String := "public") : String :=
  pre ++ "-" ++ sanitizeChannel name

/-- Embedding of `createPrivateChannelName` (default prefix argument is
`"private"`). -/
def createPrivateChannelName (userId : String) (pre : String := "private") : String :=
  pre ++ "-" ++ sanitizeChannel userId

/-! ### Server-side publisher (`api/utils/redis-config.js`)

`getPusherInstance` returns `null` when any of `PUSHER_APP_ID`, `PUSHER_KEY`,
`PUSHER_SECRET` is missing.  We record the provider environment as a Boolean
`configured` together with, per call, whether `pusher.trigger` fails.
A call's observable outcome is whether the returned promise rejects and what
was written to the console. -/

/-- Observable outcome of a publisher call: does the returned promise
reject, and which console messages were emitted. -/
structure PublishOutcome where
  rejects : Bool
  logs : List String
  deriving Repr, DecidableEq

/-- Log line emitted when Pusher is unconfigured (the `console.warn` in
`sendPusherRealtimeEvent`). -/
def warnUnconfigured : String := "Pusher not configured, skipping event"

/-- Log line emitted when `pusher.trigger` fails (the `console.error` in
`sendPusherRealtimeEvent`). -/
def errorSendFailed : String := "Failed to send event"

/-- Embedding of `sendPusherRealtimeEvent` (redis-config.js lines 180-221).
`configured` models `getPusherInstance() !== null`; `triggerFails` models the
`pusher.trigger` promise rejecting.  The source logs only under `!silent`,
returns early (resolved) when unconfigured, and re-throws the trigger error
unconditionally (`throw error;` after the conditional `console.error`). -/
def sendPusherRealtimeEvent (configured triggerFails silent : Bool) : PublishOutcome :=
  if !configured then
    { rejects := false
      logs := if !silent then [warnUnconfigured] else [] }
  else if triggerFails then
    { rejects := true
      logs := if !silent then [errorSendFailed] else [] }
  else
    { rejects := false, logs := [] }

/-- One item of a batch publication: channel, event name, and whether the
provider call for this item fails. -/
structure BatchItem where
  channel : String
  event : String
  triggerFails : Bool
  deriving Repr, DecidableEq

/-- Log line emitted by the per-item `.catch` in
`sendMultiplePusherRealtimeEvents`. -/
def errorBatchItemFailed (it : BatchItem) : String :=
  "Batch send failed on " ++ it.channel ++ "/" ++ it.event

/-- Embedding of `sendMultiplePusherRealtimeEvents` (redis-config.js lines
242-261).  The source reads `const pusher = getPusherInstance();` with **no**
null check and evaluates `pusher.trigger(...)` inside `events.map`; when the
instance is `null` and the list is non-empty, the member access throws a
`TypeError` synchronously, so the async function's promise rejects.  When the
instance exists, each item's trigger promise carries its own `.catch` that
logs and swallows the failure, and `Promise.all` of caught promises never
rejects. -/
def sendMultiplePusherRealtimeEvents (configured : Bool) (events : List BatchItem) :
    PublishOutcome :=
  if !configured then
    if events.isEmpty then { rejects := false, logs := [] }
    else { rejects := true, logs := [] }
  else
    { rejects := false
      logs := (events.filter (fun it => it.triggerFails)).map errorBatchItemFailed }

/-! ### Client-side subscription lifecycle (`src/lib/pusherRealtime.ts`)

`subscribePusherRealtime` binds three handlers on the channel: the caller's
`eventHandler` on the configured event name, and two anonymous handlers on
`pusher:subscription_error` / `pusher:subscription_succeeded`.  We give the
three distinct function identities the tags 0, 1, 2.  A channel's binding
list and `pusher.unsubscribe` (never called by this code) are modelled
explicitly so that frame properties are meaningful. -/

/-- Tag for the caller's `eventHandler` closure. -/
def callerHandler : Nat := 0

/-- Tag for the anonymous `pusher:subscription_error` handler. -/
def errorHandler : Nat := 1

/-- Tag for the anonymous `pusher:subscription_succeeded` handler. -/
def succeededHandler : Nat := 2

/-- State owned by one `subscribePusherRealtime` call: the channel's
event-name/handler bindings (`none` when `channel` is still `null`), the
closure-captured `isSubscribed` flag, and whether the underlying channel
subscription was ever released via `pusher.unsubscribe`. -/
structure SubscriptionState where
  channelBindings : Option (List (String × Nat))
  isSubscribed : Bool
  channelReleased : Bool
  deriving Repr, DecidableEq

/-- Embedding of `channel.unbind(eventName, handler)`: removes exactly the
bindings whose event name and handler identity both match. -/
def unbind (bs : List (String × Nat)) (e : String) (h : Nat) : List (String × Nat) :=
  bs.filter (fun p => !(p.1 = e && p.2 = h))

/-- State after the `autoSubscribe` block of `subscribePusherRealtime`
(lines 105-137) completes without throwing: the caller's handler is bound to
`eventName`, the two lifecycle handlers are bound, and `isSubscribed = true`. -/
def subscribeSuccessState (eventName : String) : SubscriptionState :=
  { channelBindings := some
      [(eventName, callerHandler),
       ("pusher:subscription_error", errorHandler),
       ("pusher:subscription_succeeded", succeededHandler)]
    isSubscribed := true
    channelReleased := false }

/-- Embedding of the returned `unsubscribe` closure (lines 95-103):
`if (channel && isSubscribed) { channel.unbind(eventName, eventHandler);
isSubscribed = false; }`.  It never calls `pusher.unsubscribe`. -/
def unsubscribeStep (eventName : String) (s : SubscriptionState) : SubscriptionState :=
  match s.channelBindings with
  | none => s
  | some bs =>
    if s.isSubscribed then
      { s with channelBindings := some (unbind bs eventName callerHandler)
               isSubscribed := false }
    else s

/-! ### Dynamic values and JSON

The bottle endpoint stores `JSON.stringify(bottle)` in a Redis list and on
reads defends against the store client returning either the raw string, a
re-encoded string, or an already-parsed object.  `JSVal` models the dynamic
JavaScript values involved (`vundefined` is the value of a missing object
field; `JSON.parse` itself never produces it).  `jsonParse` is a model of
`JSON.parse` covering the whitespace-free documents with integer numerals
that `JSON.stringify` emits for bottles — exactly the documents this
endpoint writes. -/

/-- Dynamic JavaScript values reaching the bottle parser. -/
inductive JSVal where
  | vundefined
  | vnull
  | vbool (b : Bool)
  | vnum (n : Int)
  | vstr (s : String)
  | varr (xs : List JSVal)
  | vobj (fields : List (String × JSVal))

/-- Left curly bracket character (code 123). -/
def lbraceChar : Char := Char.ofNat 123

/-- Right curly bracket character (code 125). -/
def rbraceChar : Char := Char.ofNat 125

/-- Decimal digit character for a value below ten. -/
def digitChar (d : Nat) : Char := Char.ofNat (48 + d)

/-- Numeric value of a decimal digit character. -/
def digitVal (c : Char) : Nat := c.toNat - 48

/-- Little-endian decimal digits of `n`, with explicit fuel so that the
definition is structural (the fuel `n` itself always suffices). -/
def natDigitsRevFuel : Nat → Nat → List Char
  | 0, _ => []
  | fuel + 1, n => if n = 0 then [] else digitChar (n % 10) :: natDigitsRevFuel fuel (n / 10)

/-- Decimal digit characters of `n`, most significant first; `0` becomes
`['0']`. -/
def encNat (n : Nat) : List Char :=
  if n = 0 then ['0'] else (natDigitsRevFuel n n).reverse

/-- Decimal rendering of an integer, as `JSON.stringify` prints it. -/
def encInt (i : Int) : List Char :=
  if i < 0 then '-' :: encNat i.natAbs else encNat i.toNat

/-- String-body escaping as performed by `JSON.stringify`: quote and
backslash characters are backslash-escaped, other characters pass through. -/
def escapeChars : List Char → List Char
  | [] => []
  | c :: s => if c = '"' || c = '\\' then '\\' :: c :: escapeChars s else c :: escapeChars s

/-- A JSON string literal: opening quote, escaped body, closing quote. -/
def encodeStringChars (s : String) : List Char :=
  '"' :: (escapeChars s.data ++ ['"'])

/-- Lexer for the body of a JSON string literal (the opening quote has been
consumed): returns the unescaped content and the remainder after the closing
quote. -/
def lexString : List Char → Option (List Char × List Char)
  | [] => none
  | c :: rest =>
    if c = '"' then some ([], rest)
    else if c = '\\' then
      match rest with
      | [] => none
      | d :: rest2 => (lexString rest2).map (fun p => (d :: p.1, p.2))
    else (lexString rest).map (fun p => (c :: p.1, p.2))

/-- Longest digit-character run at the head of the input, with the rest. -/
def spanDigits : List Char → (List Char × List Char)
  | [] => ([], [])
  | c :: rest =>
    if c.isDigit then
      let p := spanDigits rest
      (c :: p.1, p.2)
    else ([], c :: rest)

/-- Numeric value of a big-endian digit-character run. -/
def digitsToNat (ds : List Char) : Nat :=
  ds.foldl (fun a c => a * 10 + digitVal c) 0

mutual

/-- Recursive-descent JSON value parser.  The fuel bounds the recursion; one
unit is spent per nested value or field, and every such step consumes at
least one input character, so fuel `input.length + 1` always suffices. -/
def parseVal : Nat → List Char → Option (JSVal × List Char)
  | 0, _ => none
  | fuel + 1, l =>
    match l with
    | [] => none
    | c :: r =>
      if c = '"' then (lexString r).map (fun p => (JSVal.vstr (String.mk p.1), p.2))
      else if c = lbraceChar then
        match r with
        | [] => none
        | d :: r2 =>
          if d = rbraceChar then some (JSVal.vobj [], r2)
          else (parseFields fuel r).map (fun p => (JSVal.vobj p.1, p.2))
      else if c = '[' then
        match r with
        | [] => none
        | d :: r2 =>
          if d = ']' then some (JSVal.varr [], r2)
          else (parseElems fuel r).map (fun p => (JSVal.varr p.1, p.2))
      else if c = 'n' then
        match r with
        | 'u' :: 'l' :: 'l' :: r2 => some (JSVal.vnull, r2)
        | _ => none
      else if c = 't' then
        match r with
        | 'r' :: 'u' :: 'e' :: r2 => some (JSVal.vbool true, r2)
        | _ => none
      else if c = 'f' then
        match r with
        | 'a' :: 'l' :: 's' :: 'e' :: r2 => some (JSVal.vbool false, r2)
        | _ => none
      else if c = '-' then
        match spanDigits r with
        | ([], _) => none
        | (ds, r2) => some (JSVal.vnum (-(digitsToNat ds : Int)), r2)
      else if c.isDigit then
        match spanDigits (c :: r) with
        | (ds, r2) => some (JSVal.vnum ((digitsToNat ds : Int)), r2)
      else none

/-- Parser for a non-empty field list `"key":value{,...}` ending at the
closing bracket. -/
def parseFields : Nat → List Char → Option (List (String × JSVal) × List Char)
  | 0, _ => none
  | fuel + 1, l =>
    match l with
    | '"' :: r =>
      match lexString r with
      | none => none
      | some (k, r2) =>
        match r2 with
        | ':' :: r3 =>
          match parseVal fuel r3 with
          | none => none
          | some (v, r4) =>
            match r4 with
            | ',' :: r5 =>
              match parseFields fuel r5 with
              | none => none
              | some (fs, r6) => some ((String.mk k, v) :: fs, r6)
            | c :: r5 => if c = rbraceChar then some ([(String.mk k, v)], r5) else none
            | [] => none
        | _ => none
    | _ => none

/-- Parser for a non-empty array element list ending at `]`. -/
def parseElems : Nat → List Char → Option (List JSVal × List Char)
  | 0, _ => none
  | fuel + 1, l =>
    match parseVal fuel l with
    | none => none
    | some (v, r) =>
      match r with
      | ',' :: r2 =>
        match parseElems fuel r2 with
        | none => none
        | some (vs, r3) => some (v :: vs, r3)
      | ']' :: r2 => some ([v], r2)
      | _ => none

end

/-- Model of `JSON.parse`: the whole input must be consumed. -/
def jsonParse (s : String) : Option JSVal :=
  match parseVal (s.data.length + 1) s.data with
  | some (v, []) => some v
  | _ => none

/-! ### Bottles and their serialization -/

/-- A queue entry as the handler's `Bottle` interface declares it. -/
structure Bottle where
  id : String
  message : String
  timestamp : Int
  deriving Repr, DecidableEq

/-- Character stream of `JSON.stringify(bottle)`: keys in insertion order
`id`, `message`, `timestamp`, no whitespace. -/
def encodeBottleChars (id msg : String) (ts : Int) : List Char :=
  [lbraceChar] ++ encodeStringChars "id" ++ [':'] ++ encodeStringChars id
    ++ [','] ++ encodeStringChars "message" ++ [':'] ++ encodeStringChars msg
    ++ [','] ++ encodeStringChars "timestamp" ++ [':'] ++ encInt ts
    ++ [rbraceChar]

/-- Embedding of `JSON.stringify(bottle)`. -/
def encodeBottle (b : Bottle) : String :=
  String.mk (encodeBottleChars b.id b.message b.timestamp)

/-- The parse tree of a bottle's JSON document. -/
def bottleJSVal (b : Bottle) : JSVal :=
  JSVal.vobj [("id", JSVal.vstr b.id), ("message", JSVal.vstr b.message),
    ("timestamp", JSVal.vnum b.timestamp)]

/-! ### The message-in-bottle endpoint

Embedding of the current handler variant (the one with the fire-and-forget
trim): `MAX_BOTTLES`, the POST branch (validate, construct, `LPUSH`,
un-awaited `LTRIM`), and the GET branch (`LLEN`, random `LINDEX`, defensive
parse, validation).  Redis failures are injected through explicit Boolean
parameters; `Date.now()` and the random id suffix are passed in as values. -/

/-- Model of `String.prototype.trim`: removes leading and trailing
whitespace characters. -/
def jsTrim (s : String) : String :=
  String.mk (((s.data.dropWhile Char.isWhitespace).reverse.dropWhile
    Char.isWhitespace).reverse)

/-- The configured capacity bound (`const MAX_BOTTLES = 10000`). -/
def MAX_BOTTLES : Nat := 10000

/-- Embedding of `LTRIM key start stop` on a Lean list: keep the elements
with indices in `[start, stop]`. -/
def redisLtrim (l : List JSVal) (start stop : Nat) : List JSVal :=
  (l.drop start).take (stop + 1 - start)

/-- JavaScript truthiness test (`!x`) for the dynamic values in scope:
`undefined`, `null`, `false`, `0` and `""` are falsy. -/
def isFalsyJS : JSVal → Bool
  | .vundefined => true
  | .vnull => true
  | .vbool b => !b
  | .vnum n => n = 0
  | .vstr s => s = ""
  | .varr _ => false
  | .vobj _ => false

/-- The bottle id template
`` `bottle-${Date.now()}-${Math.random().toString(36).substring(2, 9)}` ``;
the random suffix is a parameter of the model. -/
def bottleIdString (now : Nat) (suffix : String) : String :=
  "bottle-" ++ toString now ++ "-" ++ suffix

/-- Outcome of one POST (Produce) call: HTTP status, the `bottle` object of
a success body, the list stored at the bottles key once the (possibly
failing) background trim has settled, and the console error log. -/
structure ProduceResult where
  status : Nat
  bottleId : Option String
  bottleTimestamp : Option Int
  store : List JSVal
  logs : List String

/-- Console line of the POST branch's `catch` around `LPUSH`. -/
def logThrowFailed : String := "Redis error when throwing bottle"

/-- Console line of the `.catch` on the un-awaited `LTRIM`. -/
def logTrimFailed : String := "Background trim failed"

/-- Embedding of the POST branch of the handler (lines 795-859): validate
the `message` field of the body, build the bottle, `LPUSH` its JSON
serialization, fire the trim without awaiting it, and answer.  `lpushFails`
and `trimFails` model the two Redis promises rejecting; `now` models
`Date.now()` and `suffix` the random id suffix. -/
def produceStep (lpushFails trimFails : Bool) (store : List JSVal)
    (msgVal : JSVal) (now : Nat) (suffix : String) : ProduceResult :=
  if isFalsyJS msgVal then
    { status := 400, bottleId := none, bottleTimestamp := none, store := store, logs := [] }
  else
    match msgVal with
    | .vstr m =>
      if (jsTrim m).length = 0 then
        { status := 400, bottleId := none, bottleTimestamp := none, store := store, logs := [] }
      else if m.length > 1000 then
        { status := 400, bottleId := none, bottleTimestamp := none, store := store, logs := [] }
      else
        let b : Bottle := ⟨bottleIdString now suffix, jsTrim m, (now : Int)⟩
        if lpushFails then
          { status := 500, bottleId := none, bottleTimestamp := none, store := store,
            logs := [logThrowFailed] }
        else
          let store1 := JSVal.vstr (encodeBottle b) :: store
          if trimFails then
            { status := 200, bottleId := some b.id, bottleTimestamp := some b.timestamp,
              store := store1, logs := [logTrimFailed] }
          else
            { status := 200, bottleId := some b.id, bottleTimestamp := some b.timestamp,
              store := redisLtrim store1 0 (MAX_BOTTLES - 1), logs := [] }
    | _ =>
      { status := 400, bottleId := none, bottleTimestamp := none, store := store, logs := [] }

/-- Field access `obj.k` on a dynamic value: objects yield the value of the
last binding for `k` (JavaScript object semantics), anything else yields
`undefined`. -/
def getField (v : JSVal) (k : String) : JSVal :=
  match v with
  | .vobj fs =>
    match fs.reverse.find? (fun p => p.1 = k) with
    | some p => p.2
    | none => .vundefined
  | _ => .vundefined

/-- Embedding of the type-dispatching decode step (lines 901-920): a string
is `JSON.parse`d, and if the result is again a string it is parsed exactly
once more; an object (arrays and objects — `null` cannot reach this code
because the preceding `!bottleData` check filtered it) is used as is; any
other type is rejected. -/
def unwrapBottleData : JSVal → Except String JSVal
  | .vstr s =>
    match jsonParse s with
    | none => .error "Failed to parse bottle JSON string"
    | some p =>
      match p with
      | .vstr s2 =>
        match jsonParse s2 with
        | none => .error "Failed to parse bottle JSON string"
        | some p2 => .ok p2
      | _ => .ok p
  | .vobj fs => .ok (.vobj fs)
  | .varr xs => .ok (.varr xs)
  | _ => .error "Unexpected bottle data type"

/-- Embedding of the field validation (lines 925-939): the value must be a
truthy object, `id` and `message` must be truthy strings, and `timestamp`
must be a number; the successfully validated bottle is returned. -/
def validateBottle (v : JSVal) : Except String Bottle :=
  if isFalsyJS v then .error "Bottle data is not an object"
  else
    match v with
    | .vobj _ | .varr _ =>
      match getField v "id" with
      | .vstr i =>
        if i = "" then .error "Bottle missing or invalid id"
        else
          match getField v "message" with
          | .vstr m =>
            if m = "" then .error "Bottle missing or invalid message"
            else
              match getField v "timestamp" with
              | .vnum t => .ok ⟨i, m, t⟩
              | _ => .error "Bottle missing or invalid timestamp"
          | _ => .error "Bottle missing or invalid message"
      | _ => .error "Bottle missing or invalid id"
    | _ => .error "Bottle data is not an object"

/-- The whole `try` block around decode and validation: its first thrown
error is the result. -/
def parseBottle (v : JSVal) : Except String Bottle :=
  match unwrapBottleData v with
  | .error e => .error e
  | .ok p => validateBottle p

/-- Embedding of `Math.floor(Math.random() * count)` with the random draw
`r ∈ [0, 1)` passed in as a rational. -/
def consumeIndex (r : ℚ) (n : Nat) : Nat :=
  (⌊r * (n : ℚ)⌋).toNat

/-- The value `LINDEX` hands to the GET branch: the element at the chosen
index, or `null` past the end of the list. -/
def consumeFetched (store : List JSVal) (r : ℚ) : JSVal :=
  store.getD (consumeIndex r store.length) .vnull

/-- Outcome of one GET (Consume) call: HTTP status, the `error` field of a
failure body, the `bottle` object of a success body, and the list stored at
the bottles key after the call. -/
structure ConsumeResult where
  status : Nat
  errorField : Option String
  bottle : Option Bottle
  store : List JSVal

/-- Embedding of the GET branch of the handler (lines 863-982): `LLEN`,
empty check, random `LINDEX`, the `!bottleData` existence check, then the
defensive parse and validation.  The branch issues no write command, so the
store it leaves behind is the one it was given. -/
def consumeStep (store : List JSVal) (r : ℚ) : ConsumeResult :=
  let n := store.length
  if n = 0 then
    { status := 404, errorField := some "No bottles in the sea", bottle := none, store := store }
  else
    let d := consumeFetched store r
    if isFalsyJS d then
      { status := 500, errorField := some "Failed to retrieve bottle", bottle := none,
        store := store }
    else
      match parseBottle d with
      | .error _ =>
        { status := 500, errorField := some "Failed to parse bottle", bottle := none,
          store := store }
      | .ok b =>
        { status := 200, errorField := none, bottle := some b, store := store }

/-- Specification-side predicate (§4.5 step 4 of the spec, quoted by the
claim): the unwrapped value carries a non-empty string `id`, a non-empty
string `message` and a numeric `timestamp`. -/
def specHasRequiredFields (v : JSVal) : Bool :=
  match getField v "id" with
  | .vstr i =>
    (i ≠ "") &&
      (match getField v "message" with
       | .vstr m =>
         (m ≠ "") &&
           (match getField v "timestamp" with
            | .vnum _ => true
            | _ => false)
       | _ => false)
  | _ => false

/-- Specification-side invalid-message predicate quoted by claim C8: absent,
not a string, empty or whitespace-only after trimming, or longer than 1000
characters. -/
def specInvalidMessage : JSVal → Bool
  | .vstr s => (jsTrim s).length = 0 || 1000 < s.length
  | _ => true

/-- Iterated Produce with the trim settled after each call, starting from an
empty store: the effect of `N` sequential successful writes. -/
def produceAllTrimmed (entries : List JSVal) : List JSVal :=
  entries.foldl (fun st e => redisLtrim (e :: st) 0 (MAX_BOTTLES - 1)) []

/-! ### Theorems -/

/-- Claim C2, counterexample: with `silent = true`, a configured provider
and a failing `trigger` call, `sendPusherRealtimeEvent` does **not** resolve
with the error logged — the promise rejects and nothing is logged, because
the source logs only under `!silent` and then re-throws unconditionally. -/
theorem silent_publish_counterexample :
    (sendPusherRealtimeEvent true true true).rejects = true
    ∧ (sendPusherRealtimeEvent true true true).logs = [] := by
  decide

/-- Claim C2, amended: `silent` only suppresses logging.  With `silent =
true` and a configured provider, nothing is ever logged and the returned
promise rejects exactly when the provider call fails. -/
theorem silent_publish_propagates :
    ∀ t : Bool, (sendPusherRealtimeEvent true t true).rejects = t
      ∧ (sendPusherRealtimeEvent true t true).logs = [] := by
  decide

/-- Claim C3: `sendMultiplePusherRealtimeEvents` dereferences
`getPusherInstance()` without a null check, so with credentials absent and a
non-empty batch the call rejects with a `TypeError` — contradicting both the
spec and the helper's own documented degrade-to-no-op contract.  With a
configured provider the per-item `.catch` keeps the batch from ever
rejecting, whatever the items do. -/
theorem batch_publish_unconfigured_rejects :
    (sendMultiplePusherRealtimeEvents false
        [⟨"public-bottles", "bottle-thrown", false⟩]).rejects = true
    ∧ ∀ events : List BatchItem,
        (sendMultiplePusherRealtimeEvents true events).rejects = false := by
  exact ⟨by decide, fun events => by simp [sendMultiplePusherRealtimeEvents]⟩

/-- Claim C7, counterexample: `createPublicChannelName "app updates!"` and
`createPublicChannelName "app_updates!"` produce the **same** channel name,
because the space and the exclamation mark are both replaced by `_`. -/
theorem channel_sanitize_collision_counterexample :
    createPublicChannelName "app updates!" = createPublicChannelName "app_updates!" := by
  decide

/-- Claim C7, amended: the two topics collide — both sanitize to
`public-app_updates_`, since every character outside `[A-Za-z0-9_.-]` is
mapped to the same replacement `_`.  This is the accepted limitation the
spec anticipates. -/
theorem channel_sanitize_collision :
    createPublicChannelName "app updates!" = "public-app_updates_"
    ∧ createPublicChannelName "app_updates!" = "public-app_updates_" := by
  decide

/-- Claim C10: `unsubscribe` only unbinds the caller's handler for the
configured event name; the two lifecycle handlers bound at subscribe time
stay bound, the channel subscription is never released, and a second
`unsubscribe` call is a no-op because `isSubscribed` is already false. -/
theorem unsubscribe_frame (e : String) :
    (unsubscribeStep e (subscribeSuccessState e)).channelBindings
      = some (unbind [(e, callerHandler),
          ("pusher:subscription_error", errorHandler),
          ("pusher:subscription_succeeded", succeededHandler)] e callerHandler)
    ∧ ("pusher:subscription_error", errorHandler)
        ∈ ((unsubscribeStep e (subscribeSuccessState e)).channelBindings.getD [])
    ∧ ("pusher:subscription_succeeded", succeededHandler)
        ∈ ((unsubscribeStep e (subscribeSuccessState e)).channelBindings.getD [])
    ∧ (e, callerHandler)
        ∉ ((unsubscribeStep e (subscribeSuccessState e)).channelBindings.getD [])
    ∧ (unsubscribeStep e (subscribeSuccessState e)).channelReleased = false
    ∧ (unsubscribeStep e (subscribeSuccessState e)).isSubscribed = false
    ∧ unsubscribeStep e (unsubscribeStep e (subscribeSuccessState e))
        = unsubscribeStep e (subscribeSuccessState e) := by
  simp [unsubscribeStep, subscribeSuccessState, unbind, callerHandler, errorHandler,
    succeededHandler]

/-- Helper: the trim the handler issues is a plain `take` to the capacity
bound. -/
theorem redisLtrim_zero (l : List JSVal) :
    redisLtrim l 0 (MAX_BOTTLES - 1) = l.take MAX_BOTTLES := by
  simp [redisLtrim, MAX_BOTTLES]

/-- Helper: trimming to `n` after appending on the left absorbs an earlier
trim to `n`. -/
theorem take_append_take {α : Type} (X Y : List α) (n : Nat) :
    (X ++ Y.take n).take n = (X ++ Y).take n := by
  rw [List.take_append_eq_append_take, List.take_append_eq_append_take, List.take_take,
    Nat.min_eq_left (Nat.sub_le _ _)]

/-- Helper: iterated push-then-trim from an empty list retains the
`MAX_BOTTLES` most recently pushed entries, newest first. -/
theorem produceAllTrimmed_eq (entries : List JSVal) :
    produceAllTrimmed entries = entries.reverse.take MAX_BOTTLES := by
  suffices h : ∀ (es st : List JSVal), st.length ≤ MAX_BOTTLES →
      es.foldl (fun st e => redisLtrim (e :: st) 0 (MAX_BOTTLES - 1)) st
        = (es.reverse ++ st).take MAX_BOTTLES by
    have := h entries [] (by simp)
    simpa [produceAllTrimmed] using this
  intro es
  induction es with
  | nil =>
    intro st hst
    simpa using (List.take_of_length_le hst).symm
  | cons e es ih =>
    intro st hst
    have hstep : redisLtrim (e :: st) 0 (MAX_BOTTLES - 1) = (e :: st).take MAX_BOTTLES := by
      simp [redisLtrim, MAX_BOTTLES]
    have hlen : ((e :: st).take MAX_BOTTLES).length ≤ MAX_BOTTLES := by
      simp [List.length_take]
    calc (e :: es).foldl (fun st e => redisLtrim (e :: st) 0 (MAX_BOTTLES - 1)) st
        = es.foldl (fun st e => redisLtrim (e :: st) 0 (MAX_BOTTLES - 1))
            ((e :: st).take MAX_BOTTLES) := by simp [hstep]
      _ = (es.reverse ++ (e :: st).take MAX_BOTTLES).take MAX_BOTTLES := ih _ hlen
      _ = (es.reverse ++ (e :: st)).take MAX_BOTTLES := take_append_take _ _ _
      _ = ((e :: es).reverse ++ st).take MAX_BOTTLES := by simp

/-- Claim C4: after a push, the trim leaves at most `MAX_BOTTLES` entries,
keeps exactly the first (newest) `MAX_BOTTLES` of the pushed list, and the
evicted entries are exactly the dropped tail (the oldest ones); iterating
push-then-trim from an empty store retains the `MAX_BOTTLES` most recent
entries, newest first. -/
theorem queue_trim_capacity_invariant :
    (∀ (store : List JSVal) (e : JSVal),
        (redisLtrim (e :: store) 0 (MAX_BOTTLES - 1)).length ≤ MAX_BOTTLES
        ∧ redisLtrim (e :: store) 0 (MAX_BOTTLES - 1) = (e :: store).take MAX_BOTTLES
        ∧ e :: store
            = redisLtrim (e :: store) 0 (MAX_BOTTLES - 1) ++ (e :: store).drop MAX_BOTTLES)
    ∧ ∀ entries : List JSVal, produceAllTrimmed entries = entries.reverse.take MAX_BOTTLES := by
  refine ⟨fun store e => ⟨?_, ?_, ?_⟩, produceAllTrimmed_eq⟩
  · rw [redisLtrim_zero]
    exact List.length_take_le _ _
  · exact redisLtrim_zero _
  · rw [redisLtrim_zero]
    exact (List.take_append_drop _ _).symm

/-- Claim C5: for a valid message, Produce answers 500 exactly when the
`LPUSH` fails; on a successful `LPUSH` it answers 200 with the bottle's id
and timestamp whatever the trim's outcome (the response does not depend on
the trim), and a trim failure only leaves a console log. -/
theorem produce_trim_fire_and_forget (lf tf : Bool) (store : List JSVal) (m : String)
    (now : Nat) (suffix : String) (hv : specInvalidMessage (.vstr m) = false) :
    ((produceStep lf tf store (.vstr m) now suffix).status = 500 ↔ lf = true)
    ∧ ((produceStep lf tf store (.vstr m) now suffix).status = 200 ↔ lf = false)
    ∧ (produceStep lf tf store (.vstr m) now suffix).bottleId
        = (produceStep lf false store (.vstr m) now suffix).bottleId
    ∧ (produceStep lf tf store (.vstr m) now suffix).bottleTimestamp
        = (produceStep lf false store (.vstr m) now suffix).bottleTimestamp
    ∧ (lf = false → tf = true →
        (produceStep lf tf store (.vstr m) now suffix).logs = [logTrimFailed]) := by
  simp only [specInvalidMessage, Bool.or_eq_false_iff, decide_eq_false_iff_not] at hv
  obtain ⟨h1, h2⟩ := hv
  have hm : ¬ m = "" := by
    intro hm
    exact h1 (by rw [hm]; rfl)
  cases lf <;> cases tf <;>
    simp [produceStep, isFalsyJS, hm, h1, h2]

/-- Claim C5 witness: a successful push with a failing trim still answers
200 and only logs the trim failure. -/
theorem produce_trim_fire_and_forget_witness :
    specInvalidMessage (.vstr "hello") = false
    ∧ ((produceStep false true [] (.vstr "hello") 7 "zzz").status = 200 ↔ false = false)
    ∧ (produceStep false true [] (.vstr "hello") 7 "zzz").logs = [logTrimFailed] := by
  refine ⟨by decide, ?_, ?_⟩
  · exact (produce_trim_fire_and_forget false true [] "hello" 7 "zzz" (by decide)).2.1
  · exact (produce_trim_fire_and_forget false true [] "hello" 7 "zzz" (by decide)).2.2.2.2
      rfl rfl

/-- Claim C8: whenever the body's `message` is absent, not a string, empty
or whitespace-only after trimming, or longer than 1000 characters, Produce
answers 400 and leaves the stored list untouched. -/
theorem produce_validation_no_write (lf tf : Bool) (store : List JSVal) (v : JSVal)
    (now : Nat) (suffix : String) (hv : specInvalidMessage v = true) :
    (produceStep lf tf store v now suffix).status = 400
    ∧ (produceStep lf tf store v now suffix).store = store := by
  cases v with
  | vstr m =>
    simp only [specInvalidMessage, Bool.or_eq_true, decide_eq_true_eq] at hv
    by_cases hm : m = ""
    · simp [produceStep, isFalsyJS, hm]
    · rcases hv with h | h
      · simp [produceStep, isFalsyJS, hm, h]
      · by_cases ht : (jsTrim m).length = 0
        · simp [produceStep, isFalsyJS, hm, ht]
        · simp [produceStep, isFalsyJS, hm, ht, h]
  | vundefined => simp [produceStep, isFalsyJS]
  | vnull => simp [produceStep, isFalsyJS]
  | vbool b => cases b <;> simp [produceStep, isFalsyJS]
  | vnum n =>
    by_cases hn : n = 0
    · simp [produceStep, isFalsyJS, hn]
    · simp [produceStep, isFalsyJS, hn]
  | varr xs => simp [produceStep, isFalsyJS]
  | vobj fs => simp [produceStep, isFalsyJS]

/-- Claim C8 witness: an absent message is rejected with 400 and nothing is
written. -/
theorem produce_validation_no_write_witness :
    specInvalidMessage JSVal.vundefined = true
    ∧ (produceStep false false [] JSVal.vundefined 0 "s").status = 400
    ∧ (produceStep false false [] JSVal.vundefined 0 "s").store = [] := by
  refine ⟨by decide, ?_, ?_⟩
  · exact (produce_validation_no_write false false [] JSVal.vundefined 0 "s" (by decide)).1
  · exact (produce_validation_no_write false false [] JSVal.vundefined 0 "s" (by decide)).2

/-! #### Round-trip of the bottle serialization through the JSON parser -/

/-- Helper: rebuilding a string from its characters is the identity. -/
theorem stringMk_data (s : String) : String.mk s.data = s := by
  cases s
  rfl

/-- Helper: digit expansion of zero is empty at every fuel. -/
theorem natDigitsRevFuel_zero (fuel : Nat) : natDigitsRevFuel fuel 0 = [] := by
  cases fuel <;> simp [natDigitsRevFuel]

/-- Helper: `digitChar` produces digit characters. -/
theorem digitChar_isDigit {d : Nat} (h : d < 10) : (digitChar d).isDigit = true := by
  interval_cases d <;> decide

/-- Helper: `digitVal` inverts `digitChar` on digits. -/
theorem digitVal_digitChar {d : Nat} (h : d < 10) : digitVal (digitChar d) = d := by
  interval_cases d <;> decide

/-- Helper: every character of the digit expansion is a digit. -/
theorem natDigitsRevFuel_digits (fuel : Nat) :
    ∀ n, ∀ c ∈ natDigitsRevFuel fuel n, c.isDigit = true := by
  induction fuel with
  | zero => simp [natDigitsRevFuel]
  | succ fuel ih =>
    intro n c hc
    by_cases hn : n = 0
    · simp [natDigitsRevFuel, hn] at hc
    · simp only [natDigitsRevFuel, if_neg hn, List.mem_cons] at hc
      rcases hc with hc | hc
      · subst hc
        exact digitChar_isDigit (Nat.mod_lt _ (by norm_num))
      · exact ih _ c hc

/-- Helper: folding the digit accumulator over the big-endian digits of a
positive `n` recovers `n`. -/
theorem foldl_natDigitsRevFuel (fuel : Nat) :
    ∀ n acc, 0 < n → n ≤ fuel →
      ((natDigitsRevFuel fuel n).reverse).foldl (fun a c => a * 10 + digitVal c) acc
        = acc * 10 ^ (natDigitsRevFuel fuel n).length + n := by
  induction fuel with
  | zero =>
    intro n acc hn hle
    omega
  | succ fuel ih =>
    intro n acc hn hle
    have hn0 : ¬ n = 0 := by omega
    have hmod : n % 10 < 10 := Nat.mod_lt _ (by norm_num)
    simp only [natDigitsRevFuel, if_neg hn0, List.reverse_cons, List.foldl_append,
      List.foldl_cons, List.foldl_nil, List.length_cons]
    by_cases hq : n / 10 = 0
    · have hlt : n < 10 := by omega
      simp [hq, natDigitsRevFuel_zero, Nat.mod_eq_of_lt hlt, digitVal_digitChar hlt]
    · have hqlt : n / 10 < n := Nat.div_lt_self hn (by norm_num)
      rw [ih (n / 10) acc (Nat.pos_of_ne_zero hq) (by omega)]
      rw [digitVal_digitChar hmod]
      have : 10 * (n / 10) + n % 10 = n := Nat.div_add_mod n 10
      rw [pow_succ]
      ring_nf
      omega

/-- Helper: parsing the decimal rendering of `n` back yields `n`. -/
theorem digitsToNat_encNat (n : Nat) : digitsToNat (encNat n) = n := by
  by_cases hn : n = 0
  · subst hn
    decide
  · unfold encNat digitsToNat
    rw [if_neg hn]
    have := foldl_natDigitsRevFuel n n 0 (Nat.pos_of_ne_zero hn) le_rfl
    simpa using this

/-- Helper: the decimal rendering consists of digit characters. -/
theorem encNat_digits (n : Nat) : ∀ c ∈ encNat n, c.isDigit = true := by
  unfold encNat
  by_cases hn : n = 0
  · simp [hn]
  · simp only [if_neg hn, List.mem_reverse]
    exact natDigitsRevFuel_digits n n

/-- Helper: the decimal rendering is never empty. -/
theorem encNat_ne_nil (n : Nat) : encNat n ≠ [] := by
  unfold encNat
  by_cases hn : n = 0
  · simp [hn]
  · obtain ⟨m, rfl⟩ : ∃ m, n = m + 1 := ⟨n - 1, by omega⟩
    simp [natDigitsRevFuel, hn]

/-- Helper: the digit lexer splits a digit run followed by a non-digit. -/
theorem spanDigits_append (ds rest : List Char)
    (hds : ∀ c ∈ ds, c.isDigit = true)
    (hrest : ∀ c, rest.head? = some c → c.isDigit = false) :
    spanDigits (ds ++ rest) = (ds, rest) := by
  induction ds with
  | nil =>
    cases rest with
    | nil => rfl
    | cons c r =>
      have := hrest c rfl
      simp [spanDigits, this]
  | cons c ds ih =>
    have hc : c.isDigit = true := hds c (by simp)
    simp only [List.cons_append, spanDigits, hc, if_true, List.append_eq]
    rw [ih (fun x hx => hds x (by simp [hx]))]

/-- Helper: the string lexer undoes `JSON.stringify`'s escaping. -/
theorem lexString_escape (s rest : List Char) :
    lexString (escapeChars s ++ '"' :: rest) = some (s, rest) := by
  induction s with
  | nil =>
    rw [escapeChars, List.nil_append, lexString.eq_def]
    simp
  | cons c s ih =>
    by_cases hc : (c = '"' || c = '\\') = true
    · rw [escapeChars, if_pos hc, List.cons_append, List.cons_append, lexString.eq_def]
      simp [ih]
    · rw [escapeChars, if_neg hc, List.cons_append, lexString.eq_def]
      simp only [Bool.or_eq_true, decide_eq_true_eq] at hc
      push_neg at hc
      simp [hc.1, hc.2, ih]

/-- Helper: a digit character is none of the tokens the value parser
dispatches on first. -/
theorem digit_not_special {d : Char} (h : d.isDigit = true) :
    d ≠ '"' ∧ d ≠ lbraceChar ∧ d ≠ '[' ∧ d ≠ 'n' ∧ d ≠ 't' ∧ d ≠ 'f' ∧ d ≠ '-' := by
  refine ⟨?_, ?_, ?_, ?_, ?_, ?_, ?_⟩ <;>
    · intro he
      rw [he] at h
      exact absurd h (by decide)

/-- Helper: the value parser accepts a JSON string literal. -/
theorem parseVal_string (fuel : Nat) (s : String) (rest : List Char) :
    parseVal (fuel + 1) ('"' :: (escapeChars s.data ++ '"' :: rest))
      = some (JSVal.vstr s, rest) := by
  rw [parseVal.eq_def]
  simp [lexString_escape, stringMk_data]

/-- Helper: the value parser accepts a decimal numeral followed by a
non-digit. -/
theorem parseVal_nat (fuel n : Nat) (c : Char) (rest : List Char)
    (hc : c.isDigit = false) :
    parseVal (fuel + 1) (encNat n ++ c :: rest) = some (JSVal.vnum (n : Int), c :: rest) := by
  obtain ⟨d, ds, hds⟩ : ∃ d ds, encNat n = d :: ds := by
    cases he : encNat n with
    | nil => exact absurd he (encNat_ne_nil n)
    | cons d ds => exact ⟨d, ds, rfl⟩
  have hd : d.isDigit = true := by
    have := encNat_digits n
    rw [hds] at this
    exact this d (by simp)
  obtain ⟨h1, h2, h3, h4, h5, h6, h7⟩ := digit_not_special hd
  have hspan : spanDigits (encNat n ++ c :: rest) = (encNat n, c :: rest) :=
    spanDigits_append _ _ (encNat_digits n) (by intro x hx; cases hx; exact hc)
  rw [hds] at hspan ⊢
  simp only [List.cons_append]
  rw [parseVal.eq_def]
  simp only [if_neg h1, if_neg h2, if_neg h3, if_neg h4, if_neg h5, if_neg h6, if_neg h7, hd]
  simp only [← List.cons_append]
  rw [hspan, ← hds]
  simp [digitsToNat_encNat]

/-- Helper: one string-valued field step of the object parser. -/
theorem parseFields_cons_str (fuel : Nat) (k v : String) (X : List Char) :
    parseFields (fuel + 2)
        ('"' :: (escapeChars k.data ++ '"' :: ':' :: '"' ::
          (escapeChars v.data ++ '"' :: ',' :: X)))
      = (parseFields (fuel + 1) X).map (fun p => ((k, JSVal.vstr v) :: p.1, p.2)) := by
  rw [show fuel + 2 = (fuel + 1) + 1 from rfl, parseFields.eq_def]
  simp only []
  rw [lexString_escape]
  simp only []
  rw [parseVal_string fuel v (',' :: X)]
  simp only [stringMk_data]
  cases h : parseFields (fuel + 1) X with
  | none => simp [h]
  | some p => simp [h]

/-- Helper: the final, number-valued field step of the object parser. -/
theorem parseFields_last_nat (fuel : Nat) (k : String) (ts : Nat) (rest : List Char) :
    parseFields (fuel + 2)
        ('"' :: (escapeChars k.data ++ '"' :: ':' :: (encNat ts ++ rbraceChar :: rest)))
      = some ([(k, JSVal.vnum (ts : Int))], rest) := by
  rw [show fuel + 2 = (fuel + 1) + 1 from rfl, parseFields.eq_def]
  simp only []
  rw [lexString_escape]
  simp only []
  rw [parseVal_nat fuel ts rbraceChar rest (by decide)]
  simp only [stringMk_data]
  simp [show ¬ (rbraceChar = ',') from by decide]

/-- Helper: the value parser accepts a serialized bottle and returns its
parse tree. -/
theorem parseVal_bottle (fuel : Nat) (id msg : String) (ts : Nat) (rest : List Char) :
    parseVal (fuel + 5) (encodeBottleChars id msg ((ts : Nat) : Int) ++ rest)
      = some (bottleJSVal ⟨id, msg, ((ts : Nat) : Int)⟩, rest) := by
  have henc : encInt ((ts : Nat) : Int) = encNat ts := by
    simp [encInt]
  have hE : encodeBottleChars id msg ((ts : Nat) : Int) ++ rest
      = lbraceChar ::
        '"' :: (escapeChars "id".data ++ '"' :: ':' :: '"' ::
          (escapeChars id.data ++ '"' :: ',' ::
        '"' :: (escapeChars "message".data ++ '"' :: ':' :: '"' ::
          (escapeChars msg.data ++ '"' :: ',' ::
        '"' :: (escapeChars "timestamp".data ++ '"' :: ':' ::
          (encNat ts ++ rbraceChar :: rest)))))) := by
    simp [encodeBottleChars, encodeStringChars, henc]
  rw [hE]
  rw [show fuel + 5 = (fuel + 4) + 1 from rfl, parseVal.eq_def]
  simp only [if_neg (show ¬ (lbraceChar = '"') from by decide),
    if_pos (rfl : lbraceChar = lbraceChar),
    if_neg (show ¬ ('"' = rbraceChar) from by decide)]
  rw [show fuel + 4 = (fuel + 2) + 2 from rfl, parseFields_cons_str]
  rw [show fuel + 2 + 1 = (fuel + 1) + 2 from rfl, parseFields_cons_str]
  rw [show fuel + 1 + 1 = fuel + 2 from rfl, parseFields_last_nat]
  simp [bottleJSVal]

/-- Helper: reading back the characters of a built string. -/
theorem data_stringMk (l : List Char) : (String.mk l).data = l := rfl

/-- Helper: a serialized bottle is at least four characters long. -/
theorem encodeBottleChars_length_ge (id msg : String) (ts : Int) :
    4 ≤ (encodeBottleChars id msg ts).length := by
  simp [encodeBottleChars, encodeStringChars]
  omega

/-- Helper: `JSON.parse` undoes `JSON.stringify` on a bottle. -/
theorem jsonParse_encodeBottle (id msg : String) (ts : Nat) :
    jsonParse (encodeBottle ⟨id, msg, ((ts : Nat) : Int)⟩)
      = some (bottleJSVal ⟨id, msg, ((ts : Nat) : Int)⟩) := by
  have hlen := encodeBottleChars_length_ge id msg ((ts : Nat) : Int)
  obtain ⟨y, hy⟩ : ∃ y, (encodeBottleChars id msg ((ts : Nat) : Int)).length + 1 = y + 5 :=
    ⟨(encodeBottleChars id msg ((ts : Nat) : Int)).length - 4, by omega⟩
  unfold jsonParse encodeBottle
  rw [data_stringMk, hy, ← List.append_nil (encodeBottleChars id msg ((ts : Nat) : Int)),
    parseVal_bottle]

/-- Helper: a serialized bottle is never the empty string. -/
theorem encodeBottle_ne_empty (b : Bottle) : encodeBottle b ≠ "" := by
  intro h
  have hd := congrArg String.data h
  rw [encodeBottle, data_stringMk] at hd
  have := encodeBottleChars_length_ge b.id b.message b.timestamp
  rw [hd] at this
  simp at this

/-- Helper: `bottle.id` on a bottle parse tree. -/
theorem getField_bottle_id (b : Bottle) :
    getField (bottleJSVal b) "id" = JSVal.vstr b.id := rfl

/-- Helper: `bottle.message` on a bottle parse tree. -/
theorem getField_bottle_message (b : Bottle) :
    getField (bottleJSVal b) "message" = JSVal.vstr b.message := rfl

/-- Helper: `bottle.timestamp` on a bottle parse tree. -/
theorem getField_bottle_timestamp (b : Bottle) :
    getField (bottleJSVal b) "timestamp" = JSVal.vnum b.timestamp := rfl

/-- Helper: validation accepts a bottle parse tree whose `id` and `message`
are non-empty. -/
theorem validateBottle_bottleJSVal (b : Bottle) (hid : b.id ≠ "") (hmsg : b.message ≠ "") :
    validateBottle (bottleJSVal b) = .ok b := by
  unfold validateBottle
  rw [if_neg (show ¬ (isFalsyJS (bottleJSVal b) = true) from by simp [bottleJSVal, isFalsyJS])]
  show (match getField (bottleJSVal b) "id" with
    | JSVal.vstr i => _
    | _ => Except.error "Bottle missing or invalid id") = Except.ok b
  rw [getField_bottle_id]
  simp only [if_neg hid]
  rw [getField_bottle_message]
  simp only [if_neg hmsg]
  rw [getField_bottle_timestamp]

/-- Helper: the defensive parse pipeline accepts a fetched serialized bottle
with non-empty `id` and `message`. -/
theorem parseBottle_encoded (id msg : String) (ts : Nat) (hid : id ≠ "") (hmsg : msg ≠ "") :
    parseBottle (.vstr (encodeBottle ⟨id, msg, ((ts : Nat) : Int)⟩))
      = .ok ⟨id, msg, ((ts : Nat) : Int)⟩ := by
  unfold parseBottle unwrapBottleData
  simp only []
  rw [jsonParse_encodeBottle]
  exact validateBottle_bottleJSVal ⟨id, msg, ((ts : Nat) : Int)⟩ hid hmsg

/-- Helper: generated bottle ids are never empty. -/
theorem bottleIdString_ne_empty (now : Nat) (suffix : String) :
    bottleIdString now suffix ≠ "" := by
  intro h
  have hlen := congrArg String.length h
  have h7 : ("bottle-" : String).length = 7 := rfl
  simp [bottleIdString, String.length_append, h7] at hlen

/-- Helper: a draw in `[0, 1)` over a single-entry list picks index zero. -/
theorem consumeIndex_one (r : ℚ) (h0 : 0 ≤ r) (h1 : r < 1) : consumeIndex r 1 = 0 := by
  unfold consumeIndex
  rw [Nat.cast_one, mul_one, Int.floor_eq_zero_iff.mpr ⟨h0, h1⟩]
  rfl

/-- Helper: a single Produce into an empty store followed by one Consume, in
full: the write succeeds, stores the serialized trimmed bottle, and the read
returns that bottle. -/
theorem consume_produce_single (m : String) (now : Nat) (suffix : String) (r : ℚ)
    (h0 : 0 ≤ r) (h1 : r < 1) (hm : (jsTrim m).length ≠ 0) (hlen : ¬ 1000 < m.length) :
    (produceStep false false [] (.vstr m) now suffix).status = 200
    ∧ (produceStep false false [] (.vstr m) now suffix).bottleId
        = some (bottleIdString now suffix)
    ∧ (produceStep false false [] (.vstr m) now suffix).bottleTimestamp = some (now : Int)
    ∧ (produceStep false false [] (.vstr m) now suffix).store
        = [JSVal.vstr (encodeBottle ⟨bottleIdString now suffix, jsTrim m, (now : Int)⟩)]
    ∧ consumeStep (produceStep false false [] (.vstr m) now suffix).store r
        = { status := 200, errorField := none,
            bottle := some ⟨bottleIdString now suffix, jsTrim m, (now : Int)⟩,
            store := (produceStep false false [] (.vstr m) now suffix).store } := by
  have hm0 : ¬ m = "" := by
    intro h
    exact hm (by rw [h]; rfl)
  have hprod : produceStep false false [] (.vstr m) now suffix
      = { status := 200, bottleId := some (bottleIdString now suffix),
          bottleTimestamp := some (now : Int),
          store := [JSVal.vstr (encodeBottle ⟨bottleIdString now suffix, jsTrim m, (now : Int)⟩)],
          logs := [] } := by
    unfold produceStep
    rw [if_neg (show ¬ (isFalsyJS (.vstr m) = true) from by simp [isFalsyJS, hm0])]
    simp only [if_neg hm, if_neg hlen, Bool.false_eq_true, if_false]
    rw [redisLtrim_zero]
    rfl
  have hmsg : jsTrim m ≠ "" := by
    intro h
    exact hm (by rw [h]; rfl)
  have hcons : consumeStep
      [JSVal.vstr (encodeBottle ⟨bottleIdString now suffix, jsTrim m, (now : Int)⟩)] r
      = { status := 200, errorField := none,
          bottle := some ⟨bottleIdString now suffix, jsTrim m, (now : Int)⟩,
          store :=
            [JSVal.vstr (encodeBottle ⟨bottleIdString now suffix, jsTrim m, (now : Int)⟩)] } := by
    unfold consumeStep
    have hfetch : consumeFetched
        [JSVal.vstr (encodeBottle ⟨bottleIdString now suffix, jsTrim m, (now : Int)⟩)] r
        = JSVal.vstr (encodeBottle ⟨bottleIdString now suffix, jsTrim m, (now : Int)⟩) := by
      unfold consumeFetched
      rw [List.length_singleton, consumeIndex_one r h0 h1]
      rfl
    simp only [List.length_singleton, hfetch]
    rw [if_neg (by norm_num)]
    rw [if_neg (show ¬ (isFalsyJS (JSVal.vstr
        (encodeBottle ⟨bottleIdString now suffix, jsTrim m, (now : Int)⟩)) = true) from by
      simp [isFalsyJS, encodeBottle_ne_empty])]
    rw [parseBottle_encoded _ _ now (bottleIdString_ne_empty now suffix) hmsg]
  rw [hprod]
  dsimp only
  exact ⟨rfl, rfl, rfl, rfl, hcons⟩

/-- Claim C9: for a non-empty store and a draw `r ∈ [0, 1)`, the chosen
index is `⌊r·n⌋`, always within `[0, n)`; it equals `i` exactly when `r·n`
lies in `[i, i+1)` (each index owns an equal-length interval of draws); the
fetched value is the entry at that index, unchanged; and the store after the
call is the store before it — sampling with replacement, no mutation. -/
theorem consume_uniform_no_mutation (store : List JSVal) (r : ℚ)
    (h0 : 0 ≤ r) (h1 : r < 1) (hne : store ≠ []) :
    consumeIndex r store.length < store.length
    ∧ (∀ i : Nat, consumeIndex r store.length = i ↔
        ((i : ℚ) ≤ r * store.length ∧ r * store.length < (i : ℚ) + 1))
    ∧ (∃ h : consumeIndex r store.length < store.length,
        consumeFetched store r = store.get ⟨consumeIndex r store.length, h⟩)
    ∧ (consumeStep store r).store = store := by
  have hnpos : 0 < store.length := List.length_pos.mpr hne
  have hcast : (0 : ℚ) < (store.length : ℚ) := by exact_mod_cast hnpos
  have hprod0 : 0 ≤ r * (store.length : ℚ) := mul_nonneg h0 (le_of_lt hcast)
  have hprodlt : r * (store.length : ℚ) < (store.length : ℚ) := by
    calc r * (store.length : ℚ) < 1 * (store.length : ℚ) :=
          mul_lt_mul_of_pos_right h1 hcast
      _ = (store.length : ℚ) := one_mul _
  have hfl0 : (0 : ℤ) ≤ ⌊r * (store.length : ℚ)⌋ := Int.floor_nonneg.mpr hprod0
  have hidx : consumeIndex r store.length < store.length := by
    have hflt : ⌊r * (store.length : ℚ)⌋ < (store.length : ℤ) := by
      rw [Int.floor_lt]
      exact_mod_cast hprodlt
    unfold consumeIndex
    omega
  refine ⟨hidx, ?_, ⟨hidx, ?_⟩, ?_⟩
  · intro i
    unfold consumeIndex
    constructor
    · intro h
      have hfi : ⌊r * (store.length : ℚ)⌋ = (i : ℤ) := by omega
      have := Int.floor_eq_iff.mp hfi
      constructor
      · exact_mod_cast this.1
      · exact_mod_cast this.2
    · intro ⟨ha, hb⟩
      have hfi : ⌊r * (store.length : ℚ)⌋ = (i : ℤ) := by
        rw [Int.floor_eq_iff]
        constructor
        · exact_mod_cast ha
        · exact_mod_cast hb
      omega
  · unfold consumeFetched
    exact List.getD_eq_getElem store JSVal.vnull hidx
  · unfold consumeStep
    dsimp only
    split
    · rfl
    · split
      · rfl
      · split <;> rfl

set_option maxRecDepth 100000 in
/-- Claim C1, counterexample: the claim as stated fails in two ways on
concrete inputs.  `Produce " a"` succeeds but the entry a subsequent Consume
returns carries `"a"`, not `" a"` — the handler stores `message.trim()`, so
the message does not round-trip character for character.  And a message of
1001 characters whose trimmed length is 1000 (within the claim's bound) is
rejected with 400, because the length validation reads the untrimmed
`message.length`. -/
theorem bottle_roundtrip_exact_counterexample :
    ((produceStep false false [] (.vstr " a") 5 "x").status = 200
      ∧ (consumeStep (produceStep false false [] (.vstr " a") 5 "x").store 0).bottle
          = some ⟨bottleIdString 5 "x", "a", (5 : Int)⟩
      ∧ ("a" : String) ≠ " a")
    ∧ ((jsTrim (String.mk (' ' :: List.replicate 1000 'a'))).length = 1000
      ∧ (produceStep false false []
          (.vstr (String.mk (' ' :: List.replicate 1000 'a'))) 0 "x").status = 400) := by
  obtain ⟨hs, _, _, _, hc⟩ :=
    consume_produce_single " a" 5 "x" 0 (le_refl 0) zero_lt_one (by decide) (by decide)
  refine ⟨⟨hs, ?_, by decide⟩, by decide, by decide⟩
  rw [hc]
  rfl

/-- Claim C1, amended: for every message `m` with non-empty trim and raw
length at most 1000 characters, Produce succeeds with status 200 and the
entry a subsequent Consume returns (single writer, empty initial store)
carries exactly `trim(m)` together with the entry's timestamp. -/
theorem bottle_roundtrip_trimmed (m : String) (now : Nat) (suffix : String) (r : ℚ)
    (h0 : 0 ≤ r) (h1 : r < 1) (hm : (jsTrim m).length ≠ 0) (hlen : ¬ 1000 < m.length) :
    (produceStep false false [] (.vstr m) now suffix).status = 200
    ∧ (consumeStep (produceStep false false [] (.vstr m) now suffix).store r).status = 200
    ∧ (consumeStep (produceStep false false [] (.vstr m) now suffix).store r).bottle
        = some ⟨bottleIdString now suffix, jsTrim m, (now : Int)⟩ := by
  obtain ⟨hs, _, _, _, hc⟩ := consume_produce_single m now suffix r h0 h1 hm hlen
  exact ⟨hs, by rw [hc], by rw [hc]⟩

/-- Claim C1 witness: a concrete produce-then-consume run. -/
theorem bottle_roundtrip_trimmed_witness :
    ((0 : ℚ) ≤ 0 ∧ (0 : ℚ) < 1 ∧ (jsTrim "hi").length ≠ 0 ∧ ¬ 1000 < ("hi" : String).length)
    ∧ (produceStep false false [] (.vstr "hi") 3 "ab").status = 200
    ∧ (consumeStep (produceStep false false [] (.vstr "hi") 3 "ab").store 0).bottle
        = some ⟨bottleIdString 3 "ab", jsTrim "hi", (3 : Int)⟩ :=
  ⟨⟨le_refl 0, zero_lt_one, by decide, by decide⟩,
   (bottle_roundtrip_trimmed "hi" 3 "ab" 0 (le_refl 0) zero_lt_one (by decide) (by decide)).1,
   (bottle_roundtrip_trimmed "hi" 3 "ab" 0 (le_refl 0) zero_lt_one (by decide) (by decide)).2.2⟩

/-- Helper: validation rejects a bare string with the not-an-object error. -/
theorem validateBottle_vstr (s : String) :
    validateBottle (.vstr s) = .error "Bottle data is not an object" := by
  unfold validateBottle
  by_cases h : s = ""
  · rw [if_pos (by simp [isFalsyJS, h])]
  · rw [if_neg (by simp [isFalsyJS, h])]

/-- Helper: when validation accepts, the value carried all the required
fields of the specification. -/
theorem specHasRequiredFields_of_ok (p : JSVal) (b : Bottle)
    (h : validateBottle p = .ok b) : specHasRequiredFields p = true := by
  unfold validateBottle at h
  repeat' split at h
  all_goals try (solve | simp at h)
  all_goals unfold specHasRequiredFields
  all_goals simp_all

/-- Helper: a bottle accepted by validation has non-empty `id` and
`message` — the pipeline never returns partial data. -/
theorem validateBottle_ok_fields (p : JSVal) (b : Bottle)
    (h : validateBottle p = .ok b) : b.id ≠ "" ∧ b.message ≠ "" := by
  unfold validateBottle at h
  repeat' split at h
  all_goals try (solve | simp at h)
  all_goals simp only [Except.ok.injEq] at h
  all_goals cases h
  all_goals constructor <;> simp_all

/-- Claim C6: Consume parses a fetched (existing, truthy) entry defensively.
A string entry is unwrapped through at most one extra layer of string
encoding: a string result of the first parse is parsed exactly once more,
and if that still yields a string the pipeline fails instead of parsing
further.  Every fetched value that, after unwrapping, lacks a non-empty
string `id`, a non-empty string `message` or a numeric `timestamp` makes
Consume answer HTTP 500 with error `"Failed to parse bottle"`.  And Consume
never returns partial data: a returned bottle has non-empty `id` and
`message` (and a numeric timestamp by construction). -/
theorem consume_defensive_parse (store : List JSVal) (r : ℚ) (d : JSVal)
    (hfetch : consumeFetched store r = d) (hd : isFalsyJS d = false) :
    (∀ s s2 s3, d = .vstr s → jsonParse s = some (.vstr s2) →
        jsonParse s2 = some (.vstr s3) →
        consumeStep store r
          = { status := 500, errorField := some "Failed to parse bottle", bottle := none,
              store := store })
    ∧ (∀ p, unwrapBottleData d = .ok p → specHasRequiredFields p = false →
        consumeStep store r
          = { status := 500, errorField := some "Failed to parse bottle", bottle := none,
              store := store })
    ∧ (∀ b, (consumeStep store r).bottle = some b → b.id ≠ "" ∧ b.message ≠ "") := by
  have hne : ¬ store.length = 0 := by
    intro h
    rw [List.length_eq_zero.mp h] at hfetch
    have hdnull : d = JSVal.vnull := by
      rw [← hfetch]
      rfl
    rw [hdnull] at hd
    exact absurd hd (by decide)
  have hcons_err : ∀ e, parseBottle d = .error e →
      consumeStep store r
        = { status := 500, errorField := some "Failed to parse bottle", bottle := none,
            store := store } := by
    intro e he
    unfold consumeStep
    dsimp only
    rw [if_neg hne, hfetch, if_neg (show ¬ (isFalsyJS d = true) from by simp [hd]), he]
  have hcons_ok : ∀ b, parseBottle d = .ok b →
      consumeStep store r
        = { status := 200, errorField := none, bottle := some b, store := store } := by
    intro b hb
    unfold consumeStep
    dsimp only
    rw [if_neg hne, hfetch, if_neg (show ¬ (isFalsyJS d = true) from by simp [hd]), hb]
  refine ⟨?_, ?_, ?_⟩
  · intro s s2 s3 hds hp1 hp2
    have hpb : parseBottle d = .error "Bottle data is not an object" := by
      subst hds
      unfold parseBottle unwrapBottleData
      simp only []
      rw [hp1]
      simp only []
      rw [hp2]
      simp only []
      exact validateBottle_vstr s3
    exact hcons_err _ hpb
  · intro p hup hspec
    have hpb : ∃ e, parseBottle d = .error e := by
      unfold parseBottle
      rw [hup]
      simp only []
      cases hv : validateBottle p with
      | error e => exact ⟨e, rfl⟩
      | ok b =>
        rw [specHasRequiredFields_of_ok p b hv] at hspec
        cases hspec
    obtain ⟨e, he⟩ := hpb
    exact hcons_err e he
  · intro b hb
    cases hpb : parseBottle d with
    | error e =>
      rw [hcons_err e hpb] at hb
      simp at hb
    | ok b2 =>
      rw [hcons_ok b2 hpb] at hb
      have hb2 : b2 = b := by
        simpa using hb
      subst hb2
      unfold parseBottle at hpb
      cases hu : unwrapBottleData d with
      | error e =>
        rw [hu] at hpb
        cases hpb
      | ok p =>
        rw [hu] at hpb
        exact validateBottle_ok_fields p b2 hpb

/-- Claim C6 witness: a truthy object entry lacking a `message` field makes
Consume fail with 500 `"Failed to parse bottle"`. -/
theorem consume_defensive_parse_witness :
    (consumeFetched [JSVal.vobj [("id", JSVal.vstr "x")]] 0 = JSVal.vobj [("id", JSVal.vstr "x")]
      ∧ isFalsyJS (JSVal.vobj [("id", JSVal.vstr "x")]) = false
      ∧ unwrapBottleData (JSVal.vobj [("id", JSVal.vstr "x")])
          = .ok (JSVal.vobj [("id", JSVal.vstr "x")])
      ∧ specHasRequiredFields (JSVal.vobj [("id", JSVal.vstr "x")]) = false)
    ∧ consumeStep [JSVal.vobj [("id", JSVal.vstr "x")]] 0
        = { status := 500, errorField := some "Failed to parse bottle", bottle := none,
            store := [JSVal.vobj [("id", JSVal.vstr "x")]] } :=
  ⟨⟨by simp [consumeFetched, consumeIndex], rfl, rfl, rfl⟩,
   (consume_defensive_parse [JSVal.vobj [("id", JSVal.vstr "x")]] 0
       (JSVal.vobj [("id", JSVal.vstr "x")])
       (by simp [consumeFetched, consumeIndex]) rfl).2.1
     (JSVal.vobj [("id", JSVal.vstr "x")]) rfl rfl⟩

/-- Claim C9 witness: a concrete draw over a one-entry store. -/
theorem consume_uniform_no_mutation_witness :
    ((0 : ℚ) ≤ 0 ∧ (0 : ℚ) < 1 ∧ ([JSVal.vnull] : List JSVal) ≠ [])
    ∧ (consumeStep [JSVal.vnull] 0).store = [JSVal.vnull] :=
  ⟨⟨le_refl 0, zero_lt_one, by simp⟩,
   (consume_uniform_no_mutation [JSVal.vnull] 0 (le_refl 0) zero_lt_one (by simp)).2.2.2⟩

end RyOS
